import Mathlib

/-!
Shallow embedding of the `init-token` crate: a run-once initialization
primitive (`init_big::Static`) guarded by `std::sync::Once`, issuing
zero-sized capability tokens (`token.rs`) whose accessors read the
initialized cell.

Modelling choices (sequential semantics):
* `std::sync::Once` is modelled by `OnceState` with the three states a
  sequential execution can observe between calls: `incomplete`,
  `complete` and `poisoned` (the transient `Running` state of the Rust
  implementation is never observable between sequential calls).
* The in-place initializer `fn(&SyncUnsafeCell<T>)` — which, through
  `get_mut`, mutates the stored value and may panic — is modelled as a
  function `T → Option T`: `some v` is the fully mutated value, `none`
  models a panic of the initializer body.
* A panic is modelled as an `Except.error`: `InitError.panicked` is the
  original panic propagated by `call_once` to the triggering caller,
  `InitError.poisoned` is the "Once instance has previously been
  poisoned" panic raised by `call_once` on a poisoned `Once`.
* `runs` is a ghost counter instrumenting how many times the initializer
  body has started executing; the Rust code has no such field, it exists
  only to state "the initializer executes at most once".
-/

namespace InitToken

/-- States of `std::sync::Once` observable between sequential calls. -/
inductive OnceState where
  | incomplete
  | complete
  | poisoned
deriving DecidableEq, Repr

/-- Errors an `init()` call can raise: the initializer's own panic
(propagated to the triggering caller) or the poison panic raised by
`call_once` on an already-poisoned `Once`. -/
inductive InitError where
  | panicked
  | poisoned
deriving DecidableEq, Repr

/-- Model of `init_big::Static<T, Token>`: the `SyncUnsafeCell<T>` storage
cell, the `Once` gate, and the fixed initializer, plus the ghost
execution counter `runs`. -/
structure Static (T : Type) where
  value : T
  once : OnceState
  initFn : T → Option T
  runs : Nat

/-- Model of `Static::new(const_value, initializer)`: stores the
placeholder unchanged, with a fresh (`incomplete`) `Once`; the
initializer has not run. -/
def Static.new {T : Type} (const_value : T) (f : T → Option T) : Static T :=
  { value := const_value, once := OnceState.incomplete, initFn := f, runs := 0 }

/-- Model of `Static::init`: `call_once` runs the initializer only from
the `incomplete` state; on normal return the gate becomes `complete` and
a token (`Except.ok ()`, the zero-sized token) is issued; on panic the
gate becomes `poisoned` and the panic propagates; on a `complete` gate it
is a no-op issuing a token; on a `poisoned` gate it raises the poison
panic. Returns the post-state together with the call's outcome. -/
def Static.init {T : Type} (s : Static T) : Static T × Except InitError Unit :=
  match s.once with
  | OnceState.complete => (s, Except.ok ())
  | OnceState.poisoned => (s, Except.error InitError.poisoned)
  | OnceState.incomplete =>
    match s.initFn s.value with
    | some v =>
      ({ s with value := v, once := OnceState.complete, runs := s.runs + 1 },
        Except.ok ())
    | none =>
      ({ s with once := OnceState.poisoned, runs := s.runs + 1 },
        Except.error InitError.panicked)

/-- Model of `Static::get_value` (the read used by `static_ref`): a bare
read of the cell. Its safety precondition — `init()` completed — appears
as a hypothesis of the theorems about it. -/
def Static.get_value {T : Type} (s : Static T) : T :=
  s.value

/-- The state after `n` further sequential `init()` calls. -/
def iterInit {T : Type} : Nat → Static T → Static T
  | 0, s => s
  | n + 1, s => iterInit n (s.init).1

/-- Model of a generated token type: the `token!` macro generates, for
each guarded static, a distinct zero-sized nominal type; here the
nominal distinction is the `owner` index. Like the Rust token it carries
no data. -/
inductive GToken (owner : Nat) where
  | mk

/-- Model of the generated `$token_name::static_ref`: for an environment
assigning each owner index its guarded static, the accessor generated
for owner `i` reads exactly static `i` — the one its token type was
declared for (`Static::get_value(&$static_name)`). -/
def staticRefAt {Ty : Nat → Type} (env : ∀ i, Static (Ty i)) (i : Nat)
    (_this : GToken i) : Ty i :=
  (env i).get_value

/-- Model of the generated `Deref::deref`, which the macro defines as
`Self::static_ref(*self)`. -/
def derefAt {Ty : Nat → Type} (env : ∀ i, Static (Ty i)) (i : Nat)
    (t : GToken i) : Ty i :=
  staticRefAt env i t

/-- A large structure for the in-place (frame) claims: several fields of
which an in-place initializer may touch only one. -/
structure BigStruct where
  a : Nat
  b : List Nat
  c : Int
deriving DecidableEq, Repr

/-- Value of a decimal digit character, `none` on a non-digit. Models the
per-character step of `str::parse::<i32>`. -/
def digitVal (c : Char) : Option Nat :=
  if c.isDigit then some (c.toNat - 48) else none

/-- Parse a non-empty all-digit character list as a natural number.
Models the digit loop of `str::parse`. -/
def parseNatChars (cs : List Char) : Option Nat :=
  match cs with
  | [] => none
  | _ =>
    cs.foldl
      (fun acc c =>
        match acc, digitVal c with
        | some n, some d => some (n * 10 + d)
        | _, _ => none)
      (some 0)

/-- Model of `str::parse::<i32>`: optional sign, decimal digits, range
check against the `i32` bounds. -/
def parseI32 (str : String) : Option Int :=
  match str.data with
  | '-' :: rest =>
    (parseNatChars rest).bind
      (fun n => if (n : Int) ≤ 2 ^ 31 then some (-(n : Int)) else none)
  | '+' :: rest =>
    (parseNatChars rest).bind
      (fun n => if (n : Int) < 2 ^ 31 then some ((n : Int)) else none)
  | _ =>
    (parseNatChars str.data).bind
      (fun n => if (n : Int) < 2 ^ 31 then some ((n : Int)) else none)

/-- The doc-example static of `init_big!`: placeholder `0`, in-place
initializer `*my_static = "-123".parse().unwrap();` (panics if the parse
fails, otherwise overwrites the placeholder with the parsed value). -/
def scenarioStatic : Static Int :=
  Static.new 0 (fun _ => parseI32 "-123")

/-! Shared lemmas about the `Once` gate. -/

lemma init_of_complete {T : Type} (s : Static T)
    (h : s.once = OnceState.complete) :
    s.init = (s, Except.ok ()) := by
  unfold Static.init
  rw [h]

lemma init_of_poisoned {T : Type} (s : Static T)
    (h : s.once = OnceState.poisoned) :
    s.init = (s, Except.error InitError.poisoned) := by
  unfold Static.init
  rw [h]

lemma init_once_terminal {T : Type} (s : Static T) :
    (s.init).1.once = OnceState.complete ∨ (s.init).1.once = OnceState.poisoned := by
  unfold Static.init
  cases h : s.once with
  | complete => left; simpa using h
  | poisoned => right; simpa using h
  | incomplete =>
    cases hf : s.initFn s.value with
    | some v => left; rfl
    | none => right; rfl

lemma init_stable {T : Type} (s : Static T)
    (h : s.once ≠ OnceState.incomplete) :
    (s.init).1 = s := by
  cases ho : s.once with
  | incomplete => exact absurd ho h
  | complete => rw [init_of_complete s ho]
  | poisoned => rw [init_of_poisoned s ho]

lemma iterInit_stable {T : Type} (n : Nat) (s : Static T)
    (h : s.once ≠ OnceState.incomplete) :
    iterInit n s = s := by
  induction n with
  | zero => rfl
  | succ m ih =>
    show iterInit m (s.init).1 = s
    rw [init_stable s h]
    exact ih

lemma iterInit_after_init {T : Type} (n : Nat) (s : Static T) :
    iterInit n (s.init).1 = (s.init).1 := by
  apply iterInit_stable
  rcases init_once_terminal s with h | h <;> rw [h] <;> intro hc <;> cases hc

lemma init_fresh_success {T : Type} (s : Static T) (v : T)
    (h0 : s.once = OnceState.incomplete) (hf : s.initFn s.value = some v) :
    s.init = ({ s with value := v, once := OnceState.complete, runs := s.runs + 1 },
      Except.ok ()) := by
  unfold Static.init
  rw [h0, hf]

lemma init_fresh_panic {T : Type} (s : Static T)
    (h0 : s.once = OnceState.incomplete) (hf : s.initFn s.value = none) :
    s.init = ({ s with once := OnceState.poisoned, runs := s.runs + 1 },
      Except.error InitError.panicked) := by
  unfold Static.init
  rw [h0, hf]

/-! Claim theorems. -/

/-- C1: for every Guarded Value, the initializer body executes at most
once for the lifetime of the process, no matter how many times `init()`
is called: starting from a value on which the initializer has not yet run
(`runs = 0`), after any number of `init()` calls the execution counter is
at most `1`; and after the first `init()` call has completed
(successfully or by failing), no later `init()` call invokes the
initializer again (the counter never moves past the first call's). -/
theorem initFn_runs_at_most_once {T : Type} (s : Static T)
    (h : s.runs = 0) (n : Nat) :
    (iterInit n s).runs ≤ 1 ∧
      ∀ m : Nat, (iterInit m (s.init).1).runs = (s.init).1.runs := by
  constructor
  · cases n with
    | zero => simp [iterInit, h]
    | succ m =>
      show (iterInit m (s.init).1).runs ≤ 1
      rw [iterInit_after_init]
      unfold Static.init
      cases ho : s.once with
      | complete => simp [h]
      | poisoned => simp [h]
      | incomplete =>
        cases hf : s.initFn s.value with
        | some v => simp [h]
        | none => simp [h]
  · intro m
    rw [iterInit_after_init]

/-- C1 witness: a concrete fresh static, checked at `n = 3`. -/
theorem initFn_runs_at_most_once_witness :
    (iterInit 3 (Static.new (0 : Int) (fun _ => some 7))).runs ≤ 1 ∧
      ∀ m : Nat,
        (iterInit m ((Static.new (0 : Int) (fun _ => some 7)).init).1).runs =
          ((Static.new (0 : Int) (fun _ => some 7)).init).1.runs :=
  initFn_runs_at_most_once (Static.new (0 : Int) (fun _ => some 7)) rfl 3

/-- C2: `init()` is idempotent: on a fresh Guarded Value whose first
`init()` call succeeded, every subsequent sequential `init()` call
returns a token equal to the first one, and the side-effect counter
incremented by the initializer equals `1` after any number of calls
(the initializer is not re-executed). -/
theorem init_idempotent {T : Type} (s : Static T) (t : Unit)
    (h0 : s.once = OnceState.incomplete) (h1 : s.runs = 0)
    (h2 : (s.init).2 = Except.ok t) (n : Nat) :
    (iterInit n (s.init).1).runs = 1 ∧
      ((iterInit n (s.init).1).init).2 = Except.ok t := by
  cases hf : s.initFn s.value with
  | none =>
    rw [init_fresh_panic s h0 hf] at h2
    cases h2
  | some v =>
    rw [iterInit_after_init]
    rw [init_fresh_success s v h0 hf]
    exact ⟨by simp [h1], by rw [init_of_complete _ rfl]⟩

/-- C2 witness: a concrete fresh static with a succeeding initializer,
checked at `n = 2`. -/
theorem init_idempotent_witness :
    (iterInit 2 ((Static.new (0 : Int) (fun _ => some 7)).init).1).runs = 1 ∧
      ((iterInit 2 ((Static.new (0 : Int) (fun _ => some 7)).init).1).init).2 =
        Except.ok () :=
  init_idempotent (Static.new (0 : Int) (fun _ => some 7)) () rfl rfl rfl 2

/-- C5: a caller of `init()` either receives a valid token together with
a fully initialized value — the stored value is the value that was
already there on an earlier success, or exactly the initializer's
complete output — or an error and no token (the gate is then poisoned);
no execution lets a caller observe a partially initialized value. -/
theorem no_partial_observation {T : Type} (s : Static T) :
    ((s.init).2 = Except.ok () ∧ (s.init).1.once = OnceState.complete ∧
        ((s.init).1.value = s.value ∨ s.initFn s.value = some ((s.init).1.value))) ∨
      ((∃ e, (s.init).2 = Except.error e) ∧
        (s.init).1.once = OnceState.poisoned) := by
  cases ho : s.once with
  | complete =>
    left
    rw [init_of_complete s ho]
    exact ⟨rfl, ho, Or.inl rfl⟩
  | poisoned =>
    right
    rw [init_of_poisoned s ho]
    exact ⟨⟨InitError.poisoned, rfl⟩, ho⟩
  | incomplete =>
    cases hf : s.initFn s.value with
    | some v =>
      left
      rw [init_fresh_success s v ho hf]
      exact ⟨rfl, rfl, Or.inr rfl⟩
    | none =>
      right
      rw [init_fresh_panic s ho hf]
      exact ⟨⟨InitError.panicked, rfl⟩, rfl⟩

/-- C10: `Static::new` never runs the initializer and stores the given
placeholder value unchanged: for every placeholder and initializer,
before the first `init()` call the storage cell holds exactly the
placeholder, the gate is fresh, and the initializer has executed zero
times. -/
theorem new_is_lazy {T : Type} (p : T) (f : T → Option T) :
    (Static.new p f).value = p ∧ (Static.new p f).runs = 0 ∧
      (Static.new p f).once = OnceState.incomplete :=
  ⟨rfl, rfl, rfl⟩

/-- C3: for a Guarded Value whose `init()` succeeded, the value accessor
(`get_value`, backing `static_ref` / deref) returns exactly the value
written by the initializer; the value persists unchanged under any number
of further `init()` calls (the reference is good for the remainder of the
process); and every token derived from that Guarded Value yields the same
value. -/
theorem token_value_binding {T : Type} (s : Static T) (v : T)
    (h0 : s.once = OnceState.incomplete) (hf : s.initFn s.value = some v)
    (n : Nat) :
    (s.init).2 = Except.ok () ∧
      ((s.init).1).get_value = v ∧
      (iterInit n (s.init).1).get_value = v ∧
      ∀ (i : Nat) (t t' : GToken i),
        staticRefAt (fun _ => (s.init).1) i t =
          staticRefAt (fun _ => (s.init).1) i t' := by
  rw [init_fresh_success s v h0 hf]
  refine ⟨rfl, rfl, ?_, ?_⟩
  · rw [iterInit_stable n _ (fun h => OnceState.noConfusion h)]
    rfl
  · intro i t t'
    rfl

/-- C3 witness: a concrete static whose initializer writes `7`, checked
after `2` further calls. -/
theorem token_value_binding_witness :
    ((Static.new (0 : Int) (fun _ => some 7)).init).2 = Except.ok () ∧
      (((Static.new (0 : Int) (fun _ => some 7)).init).1).get_value = 7 ∧
      (iterInit 2 ((Static.new (0 : Int) (fun _ => some 7)).init).1).get_value = 7 ∧
      ∀ (i : Nat) (t t' : GToken i),
        staticRefAt (fun _ => ((Static.new (0 : Int) (fun _ => some 7)).init).1) i t =
          staticRefAt (fun _ => ((Static.new (0 : Int) (fun _ => some 7)).init).1) i t' :=
  token_value_binding (Static.new (0 : Int) (fun _ => some 7)) 7 rfl rfl 2

/-- C4: poisoning is permanent: if the initializer fails during its
single execution, the original failure is raised to the triggering
caller, the gate becomes poisoned, and every later `init()` call —
after any number of intervening calls — leaves the state untouched,
fails with the distinct poisoning error, never produces a token, and
never re-runs the initializer (the run counter is frozen). -/
theorem poisoning_permanent {T : Type} (s : Static T)
    (h0 : s.once = OnceState.incomplete) (hf : s.initFn s.value = none)
    (n : Nat) :
    (s.init).2 = Except.error InitError.panicked ∧
      (s.init).1.once = OnceState.poisoned ∧
      iterInit n (s.init).1 = (s.init).1 ∧
      ((iterInit n (s.init).1).init).2 = Except.error InitError.poisoned ∧
      (iterInit n (s.init).1).runs = (s.init).1.runs := by
  rw [init_fresh_panic s h0 hf]
  have hstable :
      iterInit n ({ s with once := OnceState.poisoned, runs := s.runs + 1 } : Static T) =
        { s with once := OnceState.poisoned, runs := s.runs + 1 } :=
    iterInit_stable n _ (fun h => OnceState.noConfusion h)
  refine ⟨rfl, rfl, hstable, ?_, ?_⟩
  · rw [hstable, init_of_poisoned _ rfl]
  · rw [hstable]

/-- C4 witness: a concrete static whose initializer panics, checked after
`2` further calls. -/
theorem poisoning_permanent_witness :
    ((Static.new (0 : Int) (fun _ => none)).init).2 = Except.error InitError.panicked ∧
      ((Static.new (0 : Int) (fun _ => none)).init).1.once = OnceState.poisoned ∧
      iterInit 2 ((Static.new (0 : Int) (fun _ => none)).init).1 =
        ((Static.new (0 : Int) (fun _ => none)).init).1 ∧
      ((iterInit 2 ((Static.new (0 : Int) (fun _ => none)).init).1).init).2 =
        Except.error InitError.poisoned ∧
      (iterInit 2 ((Static.new (0 : Int) (fun _ => none)).init).1).runs =
        ((Static.new (0 : Int) (fun _ => none)).init).1.runs :=
  poisoning_permanent (Static.new (0 : Int) (fun _ => none)) rfl rfl 2

/-- C6: a token issued for one Guarded Value can never be used to access
a different Guarded Value's storage: the accessor generated for token
type `i` reads exactly static `i` (it equals `get_value` of static `i`),
and replacing any other static `j ≠ i` in the environment leaves its
result unchanged — tokens of two distinct Guarded Values are not
interchangeable. -/
theorem token_cannot_cross {Ty : Nat → Type} (env : ∀ k, Static (Ty k))
    (i j : Nat) (hij : i ≠ j) (s' : Static (Ty j)) (t : GToken i) :
    staticRefAt (Function.update env j s') i t = staticRefAt env i t ∧
      staticRefAt env i t = (env i).get_value := by
  constructor
  · show (Function.update env j s' i).get_value = (env i).get_value
    rw [Function.update_noteq hij]
  · rfl

/-- C6 witness: two concrete statics at indices `0` and `1`; replacing
static `1` does not change what the token of static `0` reads. -/
theorem token_cannot_cross_witness :
    staticRefAt
        (Function.update (fun _ : Nat => Static.new (0 : Int) (fun _ => some 1)) 1
          (Static.new (5 : Int) (fun _ => none)))
        0 GToken.mk =
      staticRefAt (fun _ : Nat => Static.new (0 : Int) (fun _ => some 1)) 0 GToken.mk ∧
      staticRefAt (fun _ : Nat => Static.new (0 : Int) (fun _ => some 1)) 0 GToken.mk =
        ((fun _ : Nat => Static.new (0 : Int) (fun _ => some 1)) 0).get_value :=
  token_cannot_cross (fun _ : Nat => Static.new (0 : Int) (fun _ => some 1)) 0 1
    (by decide) (Static.new (5 : Int) (fun _ => none)) GToken.mk

/-- C7: in-place initialization is a frame-exact mutation of the
placeholder: for every placeholder and an in-place initializer that
mutates only field `a` of the stored structure, after a successful
`init()` the stored value is the placeholder with exactly that mutation
applied — fields `b` and `c` still hold their placeholder values. -/
theorem inplace_frame_exact (p : BigStruct) (g : Nat → Nat) :
    ((Static.new p (fun v => some { v with a := g v.a })).init).2 = Except.ok () ∧
      ((Static.new p (fun v => some { v with a := g v.a })).init).1.value.a = g p.a ∧
      ((Static.new p (fun v => some { v with a := g v.a })).init).1.value.b = p.b ∧
      ((Static.new p (fun v => some { v with a := g v.a })).init).1.value.c = p.c :=
  ⟨rfl, rfl, rfl, rfl⟩

/-- C8: the doc-example scenario: a guarded integer with placeholder `0`
whose in-place initializer parses the text "-123"; `init()` yields a
token whose accessor reads `-123`, and a second `init()` call — with the
initializer still having run only once, so no re-parse — again yields a
token whose accessor reads `-123`. -/
theorem scenario_parse_neg123 :
    (InitToken.scenarioStatic.init).2 = Except.ok () ∧
      (InitToken.scenarioStatic.init).1.get_value = -123 ∧
      ((InitToken.scenarioStatic.init).1.init).2 = Except.ok () ∧
      ((InitToken.scenarioStatic.init).1.init).1.get_value = -123 ∧
      ((InitToken.scenarioStatic.init).1.init).1.runs = 1 := by
  refine ⟨rfl, by decide, rfl, by decide, by decide⟩

/-- C9: dereferencing a token returns the same value as the associated
function `static_ref` applied to that token: the two public read
accessors of a token are extensionally equal. -/
theorem deref_eq_static_ref {Ty : Nat → Type} (env : ∀ k, Static (Ty k))
    (i : Nat) (t : GToken i) :
    derefAt env i t = staticRefAt env i t :=
  rfl

end InitToken
